import Mathlib

/-!
Shallow embedding of the Tavus bridge service (src/main.py): an
OpenAI-compatible chat-completions endpoint translated onto a "teacher"
backend API.  Pure helpers (config extraction, conversation id, response
translation) are embedded as Lean functions; the two backend HTTP calls are
parameters (an `HttpOutcome` value models the one response the handler would
observe), and the request handler becomes a pure function of the request, the
session store, and those outcomes.  Machine-level details kept faithful:
MD5 over the UTF-8 bytes of the system prompt (implemented bit-for-bit with
Nat arithmetic mod 2^32), Python `str.split`/`str.strip` semantics (ASCII
whitespace; the claims only involve ASCII text), and the backtracking
behaviour of `re.search` on the tag patterns.
-/

namespace Bridge

/-- A chat message, as in the `Message` pydantic model (main.py:39). -/
structure Message where
  role : String
  content : String
deriving DecidableEq, Repr

/-- ASCII whitespace, the characters Python `str.split()` / `str.strip()`
split on for the ASCII range: space, tab, newline, carriage return,
vertical tab, form feed. -/
def isPySpace (c : Char) : Bool :=
  c = ' ' || c = '\t' || c = '\n' || c = '\x0d' || c = '\x0b' || c = '\x0c'

/-- Accumulator pass behind `pySplit`: `cur` holds the current word reversed. -/
def splitAux : List Char → List Char → List String
  | [], [] => []
  | [], cur => [String.mk cur.reverse]
  | c :: rest, cur =>
    if isPySpace c then
      match cur with
      | [] => splitAux rest []
      | _ => String.mk cur.reverse :: splitAux rest []
    else
      splitAux rest (c :: cur)

/-- Python `text.split()`: split on runs of whitespace, no empty pieces. -/
def pySplit (s : String) : List String :=
  splitAux s.data []

/-- Python `str.strip()`: drop leading and trailing whitespace. -/
def pyStrip (s : String) : String :=
  String.mk (((s.data.dropWhile (isPySpace ·)).reverse.dropWhile (isPySpace ·)).reverse)

/-- Index of the first `]` in a character list, if any. -/
def firstCloseIdx : List Char → Option Nat
  | [] => none
  | c :: rest =>
    if c = ']' then some 0
    else match firstCloseIdx rest with
      | some n => some (n + 1)
      | none => none

/-- Whether `pat` is an initial segment of `s`; returns the remainder. -/
def dropLit : List Char → List Char → Option (List Char)
  | [], s => some s
  | _, [] => none
  | p :: ps, c :: cs => if p = c then dropLit ps cs else none

/-- One step of `re.search(r"\[KEY:\s*([^\]]+)\]", s)` at the current
position: the pattern matches here exactly when the text continues with
`[KEY:` and the remainder has a `]` at index at least 1; the captured group,
after Python `strip()`, is then the stripped text before that first `]`
(the regex backtracks `\s*` so that the group is nonempty, but stripping
erases the difference). -/
def tagHere (key : List Char) (s : List Char) : Option String :=
  match dropLit ('[' :: key ++ [':']) s with
  | none => none
  | some rest =>
    match firstCloseIdx rest with
    | none => none
    | some p => if p = 0 then none else some (pyStrip (String.mk (rest.take p)))

/-- `re.search` over the whole text: first position where the pattern
matches wins (main.py:104). -/
def tagSearch (key : List Char) : List Char → Option String
  | [] => none
  | c :: rest =>
    match tagHere key (c :: rest) with
    | some v => some v
    | none => tagSearch key rest

/-- `re.search(r"\[KEY:\s*([^\]]+)\]", s)` followed by `.group(1).strip()`,
as used on each pattern of main.py:93-106. -/
def findTagValue (key : String) (s : String) : Option String :=
  tagSearch key.data s.data

/-- The extracted lesson configuration: the `config` dict of
`extract_config_from_system_prompt` (main.py:74), whose keys are fixed. -/
structure LessonConfig where
  subject : String
  chapter : String
  lesson : String
  level : String
  language : String
  student : String
  competence : List String
deriving DecidableEq, Repr

/-- Content of the first message with role `"system"`, or `""` if none —
the loop of main.py:85-89 (also main.py:122-126). -/
def systemContent : List Message → String
  | [] => ""
  | msg :: rest => if msg.role = "system" then msg.content else systemContent rest

/-- `extract_config_from_system_prompt` (main.py:72-117): defaults, tag
overrides, and the competence synthesis step of main.py:113-115 (Python
truthiness of `config["lesson"]` is `lesson ≠ ""`). -/
def extract_config_from_system_prompt (messages : List Message) : LessonConfig :=
  let sys := systemContent messages
  let subject := (findTagValue "SUBJECT" sys).getD "Physics"
  let chapter := (findTagValue "CHAPTER" sys).getD "General"
  let lesson := (findTagValue "LESSON" sys).getD "Introduction"
  let level := (findTagValue "LEVEL" sys).getD "High School"
  let language := (findTagValue "LANGUAGE" sys).getD "en"
  let student := (findTagValue "STUDENT" sys).getD "Student"
  let competence0 :=
    match findTagValue "COMPETENCE" sys with
    | some v => [v]
    | none => ["Understanding the core concepts"]
  let competence :=
    if competence0 = ["Understanding the core concepts"] ∧ lesson ≠ "" then
      ["Understanding " ++ lesson]
    else competence0
  ⟨subject, chapter, lesson, level, language, student, competence⟩

/-- `get_last_user_message` (main.py:132-137): content of the last message
with role `"user"`, or `""`. -/
def get_last_user_message (messages : List Message) : String :=
  match messages.reverse.find? (fun msg => msg.role = "user") with
  | some msg => msg.content
  | none => ""

/-! ### MD5 (hashlib.md5), on byte lists, 32-bit words as Nat mod 2^32 -/

/-- Reduce modulo 2^32. -/
def m32 (n : Nat) : Nat := n % 4294967296

/-- Left rotation of a 32-bit word by `c` bits (0 < c < 32). -/
def rotl32 (x c : Nat) : Nat := m32 (x <<< c) ||| (x >>> (32 - c))

/-- UTF-8 encoding of one character, as Python `str.encode()` produces. -/
def charUtf8 (c : Char) : List Nat :=
  let n := c.toNat
  if n < 128 then [n]
  else if n < 2048 then [192 + n / 64, 128 + n % 64]
  else if n < 65536 then [224 + n / 4096, 128 + (n / 64) % 64, 128 + n % 64]
  else [240 + n / 262144, 128 + (n / 4096) % 64, 128 + (n / 64) % 64, 128 + n % 64]

/-- UTF-8 bytes of a string (`s.encode()`). -/
def utf8Bytes (s : String) : List Nat := s.data.flatMap charUtf8

/-- The 64 MD5 sine-derived constants. -/
def mdK : List Nat :=
  [0xd76aa478, 0xe8c7b756, 0x242070db, 0xc1bdceee,
   0xf57c0faf, 0x4787c62a, 0xa8304613, 0xfd469501,
   0x698098d8, 0x8b44f7af, 0xffff5bb1, 0x895cd7be,
   0x6b901122, 0xfd987193, 0xa679438e, 0x49b40821,
   0xf61e2562, 0xc040b340, 0x265e5a51, 0xe9b6c7aa,
   0xd62f105d, 0x02441453, 0xd8a1e681, 0xe7d3fbc8,
   0x21e1cde6, 0xc33707d6, 0xf4d50d87, 0x455a14ed,
   0xa9e3e905, 0xfcefa3f8, 0x676f02d9, 0x8d2a4c8a,
   0xfffa3942, 0x8771f681, 0x6d9d6122, 0xfde5380c,
   0xa4beea44, 0x4bdecfa9, 0xf6bb4b60, 0xbebfbc70,
   0x289b7ec6, 0xeaa127fa, 0xd4ef3085, 0x04881d05,
   0xd9d4d039, 0xe6db99e5, 0x1fa27cf8, 0xc4ac5665,
   0xf4292244, 0x432aff97, 0xab9423a7, 0xfc93a039,
   0x655b59c3, 0x8f0ccc92, 0xffeff47d, 0x85845dd1,
   0x6fa87e4f, 0xfe2ce6e0, 0xa3014314, 0x4e0811a1,
   0xf7537e82, 0xbd3af235, 0x2ad7d2bb, 0xeb86d391]

/-- The 64 per-round rotation amounts. -/
def mdS : List Nat :=
  [7, 12, 17, 22, 7, 12, 17, 22, 7, 12, 17, 22, 7, 12, 17, 22,
   5, 9, 14, 20, 5, 9, 14, 20, 5, 9, 14, 20, 5, 9, 14, 20,
   4, 11, 16, 23, 4, 11, 16, 23, 4, 11, 16, 23, 4, 11, 16, 23,
   6, 10, 15, 21, 6, 10, 15, 21, 6, 10, 15, 21, 6, 10, 15, 21]

/-- Round function F/G/H/I depending on the round index. -/
def mdF (i b c d : Nat) : Nat :=
  if i < 16 then (b &&& c) ||| ((4294967295 ^^^ b) &&& d)
  else if i < 32 then (d &&& b) ||| ((4294967295 ^^^ d) &&& c)
  else if i < 48 then b ^^^ c ^^^ d
  else c ^^^ (b ||| (4294967295 ^^^ d))

/-- Message-word index used by round `i`. -/
def mdG (i : Nat) : Nat :=
  if i < 16 then i % 16
  else if i < 32 then (5 * i + 1) % 16
  else if i < 48 then (3 * i + 5) % 16
  else (7 * i) % 16

/-- Little-endian 32-bit word from four bytes. -/
def leWord (b0 b1 b2 b3 : Nat) : Nat :=
  b0 + b1 * 256 + b2 * 65536 + b3 * 16777216

/-- A 64-byte chunk as sixteen little-endian 32-bit words. -/
def toWords : List Nat → List Nat
  | b0 :: b1 :: b2 :: b3 :: rest => leWord b0 b1 b2 b3 :: toWords rest
  | _ => []

/-- One of the 64 MD5 operations on the running state `(a, b, c, d)`. -/
def md5Op (msgWords : List Nat) (st : Nat × Nat × Nat × Nat) (i : Nat) :
    Nat × Nat × Nat × Nat :=
  match st with
  | (a, b, c, d) =>
    let f := m32 (mdF i b c d + a + mdK.getD i 0 + msgWords.getD (mdG i) 0)
    (d, m32 (b + rotl32 f (mdS.getD i 0)), b, c)

/-- Process one 64-byte chunk. -/
def md5Chunk (st : Nat × Nat × Nat × Nat) (chunk : List Nat) :
    Nat × Nat × Nat × Nat :=
  let msgWords := toWords chunk
  match st, (List.range 64).foldl (md5Op msgWords) st with
  | (a0, b0, c0, d0), (a, b, c, d) =>
    (m32 (a0 + a), m32 (b0 + b), m32 (c0 + c), m32 (d0 + d))

/-- Split into successive 64-byte chunks; the first argument is fuel (one
unit per chunk suffices, the caller passes the list length), keeping the
recursion structural. -/
def chunksGo : Nat → List Nat → List (List Nat)
  | 0, _ => []
  | _ + 1, [] => []
  | fuel + 1, l => l.take 64 :: chunksGo fuel (l.drop 64)

/-- Split into successive 64-byte chunks. -/
def chunks64 (l : List Nat) : List (List Nat) :=
  chunksGo l.length l

/-- MD5 padding: `0x80`, zeros to 56 mod 64, then the bit length as eight
little-endian bytes. -/
def md5Pad (msg : List Nat) : List Nat :=
  let len := msg.length
  let zeros := (119 - len % 64) % 64
  let bitLen := (8 * len) % 18446744073709551616
  msg ++ [128] ++ List.replicate zeros 0
    ++ ((List.range 8).map (fun i => (bitLen >>> (8 * i)) % 256))

/-- One 32-bit word as four little-endian bytes. -/
def wordLEBytes (w : Nat) : List Nat :=
  [w % 256, (w >>> 8) % 256, (w >>> 16) % 256, (w >>> 24) % 256]

/-- The 16 digest bytes of MD5. -/
def md5Bytes (msg : List Nat) : List Nat :=
  match (chunks64 (md5Pad msg)).foldl md5Chunk
      (0x67452301, 0xefcdab89, 0x98badcfe, 0x10325476) with
  | (a, b, c, d) => wordLEBytes a ++ wordLEBytes b ++ wordLEBytes c ++ wordLEBytes d

/-- Lowercase hex digit. -/
def hexDigit (n : Nat) : Char :=
  if n < 10 then Char.ofNat (48 + n) else Char.ofNat (87 + n)

/-- Lowercase hex string of a byte list (`hexdigest()`). -/
def hexOfBytes (bs : List Nat) : String :=
  String.mk (bs.flatMap (fun b => [hexDigit (b / 16 % 16), hexDigit (b % 16)]))

/-- `hashlib.md5(bytes).hexdigest()`. -/
def md5hex (msg : List Nat) : String := hexOfBytes (md5Bytes msg)

/-- `get_conversation_id` (main.py:120-129): MD5 hex digest of the UTF-8
bytes of the system message content (empty string when no system message). -/
def get_conversation_id (messages : List Message) : String :=
  md5hex (utf8Bytes (systemContent messages))

/-! ### Backend client (start_teacher_session, send_message_to_teacher)

The one HTTP exchange a client function would perform is passed in as an
`HttpOutcome`: either the response the backend produced (status, raw text,
and its JSON body already decoded into the fields the bridge reads), or a
transport-level failure (`httpx.HTTPError`: timeout, connection error). -/

/-- JSON body of a `/api/v1/teacher/start` response, restricted to the two
fields the bridge reads; `none` models an absent key. -/
structure StartBody where
  session_id : Option String
  initial_message : Option String
deriving DecidableEq, Repr

/-- JSON body of a `/api/v1/teacher/message` response, restricted to the
field the bridge reads. -/
structure SendBody where
  teacher_message : Option String
deriving DecidableEq, Repr

/-- What one backend HTTP exchange yields. -/
inductive HttpOutcome (β : Type)
  | response (status : Nat) (text : String) (body : β)
  | transportError (msg : String)
deriving DecidableEq, Repr

/-- How a backend client function fails: `httpException` models the
`HTTPException(status_code, detail)` raised on a non-success status
(main.py:162, main.py:187); `transportError` the re-raised
`httpx.HTTPError` (main.py:165-167, main.py:190-192). -/
inductive BridgeError
  | httpException (status : Nat) (detail : String)
  | transportError (msg : String)
deriving DecidableEq, Repr

/-- Payload of the `/start` call (main.py:144-152).  The `.get` defaults in
the source are dead code here: `extract_config_from_system_prompt` always
populates every key. -/
structure StartPayload where
  subject : String
  chapter : String
  lesson : String
  level : String
  student_name : String
  teacher_language : String
  competence : List String
deriving DecidableEq, Repr

/-- The payload `start_teacher_session` builds from the config. -/
def startPayload (config : LessonConfig) : StartPayload :=
  ⟨config.subject, config.chapter, config.lesson, config.level,
   config.student, config.language, config.competence⟩

/-- `start_teacher_session` (main.py:140-167): status 201 is success and the
parsed body is returned; any other status raises `HTTPException` carrying the
status and raw text; `httpx.HTTPError` is re-raised. -/
def start_teacher_session (r : HttpOutcome StartBody) : Except BridgeError StartBody :=
  match r with
  | .response status text body =>
    if status ≠ 201 then .error (.httpException status text) else .ok body
  | .transportError msg => .error (.transportError msg)

/-- `send_message_to_teacher` (main.py:170-192): status 200 is success; same
error taxonomy as `start_teacher_session`. -/
def send_message_to_teacher (r : HttpOutcome SendBody) : Except BridgeError SendBody :=
  match r with
  | .response status text body =>
    if status ≠ 200 then .error (.httpException status text) else .ok body
  | .transportError msg => .error (.transportError msg)

/-! ### Response translation -/

/-- One streamed chunk, structurally: the JSON object of main.py:201-211 and
main.py:216-226 keeps `id`, `object`, `created`, `model` and one choice with
`index`, `delta` (`some s` for `{"content": s}`, `none` for `{}`) and
`finish_reason`. -/
structure ChunkData where
  id : String
  object : String
  created : Nat
  model : String
  index : Nat
  delta : Option String
  finish_reason : Option String
deriving DecidableEq, Repr

/-- One Server-Sent-Events emission of `stream_response`: a `data:` line with
a chunk JSON, or the literal `data: [DONE]` sentinel (main.py:228). -/
inductive SSEEvent
  | chunk (c : ChunkData)
  | done
deriving DecidableEq, Repr

/-- `stream_response` (main.py:195-228): one chunk per `text.split()` word
carrying the word plus a trailing space, then a final chunk with empty delta
and finish reason `"stop"`, then the `[DONE]` sentinel.  The `asyncio.sleep`
pacing between events is timing, not data, and is not modelled. -/
def stream_response (text chat_id model : String) (created : Nat) : List SSEEvent :=
  (pySplit text).map (fun word =>
    .chunk ⟨chat_id, "chat.completion.chunk", created, model, 0, some (word ++ " "), none⟩)
  ++ [.chunk ⟨chat_id, "chat.completion.chunk", created, model, 0, none, some "stop"⟩,
      .done]

/-- The message object inside a non-streaming choice. -/
structure ChoiceMessage where
  role : String
  content : String
deriving DecidableEq, Repr

/-- One choice of a non-streaming completion (main.py:327-331). -/
structure Choice where
  index : Nat
  message : ChoiceMessage
  finish_reason : String
deriving DecidableEq, Repr

/-- The `ChatCompletionResponse` pydantic model (main.py:52-57). -/
structure ChatCompletionResponse where
  id : String
  object : String
  created : Nat
  model : String
  choices : List Choice
deriving DecidableEq, Repr

/-- The non-streaming branch of the handler (main.py:323-332). -/
def nonStreamingResponse (chat_id : String) (created : Nat)
    (model teacher_message : String) : ChatCompletionResponse :=
  ⟨chat_id, "chat.completion", created, model,
   [⟨0, ⟨"assistant", teacher_message⟩, "stop"⟩]⟩

/-! ### Request orchestrator (chat_completions) -/

/-- The `ChatCompletionRequest` pydantic model (main.py:44-49); `temperature`
and `max_tokens` are accepted and ignored by the handler and are left out of
the model (they are floats/ints never read). -/
structure ChatCompletionRequest where
  model : String
  messages : List Message
  stream : Bool
deriving Repr

/-- One entry of the in-memory `sessions` dict (main.py:289-294). -/
structure Session where
  session_id : String
  config : LessonConfig
  created : Nat
  initial_message : String
deriving DecidableEq, Repr

/-- The process-wide `sessions` mapping (main.py:31). -/
def Store : Type := String → Option Session

/-- Python `sessions[conversation_id] = session`. -/
def storeInsert (store : Store) (k : String) (v : Session) : Store :=
  fun k2 => if k2 = k then some v else store k2

/-- The fixed apology of the handler's `except` branch (main.py:311). -/
def apology_message : String :=
  "I'm having a small technical issue. Could you repeat that?"

/-- The fallback when a send success body lacks `teacher_message` (main.py:306). -/
def fallback_message : String :=
  "I apologize, but I didn't catch that. Could you please repeat?"

/-- The default greeting when a start success body lacks `initial_message`
(main.py:293). -/
def default_greeting : String := "Hello! I'm your AI teacher."

/-- A backend call the handler performed, with what it sent. -/
inductive BackendCall
  | start (payload : StartPayload)
  | send (session_id : String) (message : String)
deriving DecidableEq, Repr

/-- What one run of the handler's session logic produced: the reply text
(`teacher_message` variable), the store afterwards, and the backend calls
made, in order. -/
structure CoreResult where
  teacher_message : String
  store : Store
  calls : List BackendCall

/-- The session logic of `chat_completions` (main.py:282-311).  On a store
miss it calls the start operation: an error, or a success body without
`session_id` (the `session_data["session_id"]` KeyError of main.py:290),
lands in the `except` branch with the apology and an untouched store; a
usable success inserts the new session and replies with its
`initial_message`.  On a hit it calls the send operation with the stored
session id and the last user message. -/
def chat_core (messages : List Message) (store : Store)
    (startO : HttpOutcome StartBody) (sendO : HttpOutcome SendBody)
    (now : Nat) : CoreResult :=
  let config := extract_config_from_system_prompt messages
  let conversation_id := get_conversation_id messages
  let user_message := get_last_user_message messages
  match store conversation_id with
  | none =>
    let calls := [BackendCall.start (startPayload config)]
    match start_teacher_session startO with
    | .error _ => ⟨apology_message, store, calls⟩
    | .ok session_data =>
      match session_data.session_id with
      | none => ⟨apology_message, store, calls⟩
      | some sid =>
        let session : Session :=
          ⟨sid, config, now, session_data.initial_message.getD default_greeting⟩
        ⟨session.initial_message, storeInsert store conversation_id session, calls⟩
  | some session =>
    let calls := [BackendCall.send session.session_id user_message]
    match send_message_to_teacher sendO with
    | .error _ => ⟨apology_message, store, calls⟩
    | .ok response_data =>
      ⟨response_data.teacher_message.getD fallback_message, store, calls⟩

/-- The HTTP body the handler returns: an SSE stream or one completion. -/
inductive ChatOutput
  | streamed (events : List SSEEvent)
  | completed (resp : ChatCompletionResponse)
deriving DecidableEq, Repr

/-- Full `chat_completions` (main.py:262-332): run the session logic, then
translate the reply per the `stream` flag.  `chat_id` stands for the fresh
`uuid.uuid4()` and `created` for `int(time.time())`; both are external
inputs.  Every run returns a `ChatOutput` — the HTTP layer sees a success
in all cases. -/
def chat_completions (req : ChatCompletionRequest) (store : Store)
    (startO : HttpOutcome StartBody) (sendO : HttpOutcome SendBody)
    (now : Nat) (chat_id : String) (created : Nat) : ChatOutput × CoreResult :=
  let core := chat_core req.messages store startO sendO now
  (if req.stream then
      .streamed (stream_response core.teacher_message chat_id req.model created)
    else
      .completed (nonStreamingResponse chat_id created req.model core.teacher_message),
   core)

/-- The taken path's backend interaction faulted: on a miss, the start call
raised or its success body lacked `session_id`; on a hit, the send call
raised.  These are exactly the executions whose control reaches the
handler's `except` branch (main.py:309-311). -/
def pathFailure (messages : List Message) (store : Store)
    (startO : HttpOutcome StartBody) (sendO : HttpOutcome SendBody) : Prop :=
  match store (get_conversation_id messages) with
  | none =>
    match start_teacher_session startO with
    | .error _ => True
    | .ok body => body.session_id = none
  | some _ =>
    match send_message_to_teacher sendO with
    | .error _ => True
    | .ok _ => False

/-! ### Helper lemmas -/

theorem hexPair_length (bs : List Nat) :
    (bs.flatMap (fun b => [hexDigit (b / 16 % 16), hexDigit (b % 16)])).length =
      2 * bs.length := by
  induction bs with
  | nil => rfl
  | cons b rest ih => simp [List.flatMap_cons, ih]; omega

theorem wordLE_quad_length (st : Nat × Nat × Nat × Nat) :
    (match st with
     | (a, b, c, d) =>
       wordLEBytes a ++ wordLEBytes b ++ wordLEBytes c ++ wordLEBytes d).length = 16 := by
  obtain ⟨a, b, c, d⟩ := st
  simp [wordLEBytes]

theorem md5Bytes_length (msg : List Nat) : (md5Bytes msg).length = 16 := by
  unfold md5Bytes
  exact wordLE_quad_length _

theorem md5hex_length (msg : List Nat) : (md5hex msg).length = 32 := by
  show ((md5Bytes msg).flatMap
      (fun b => [hexDigit (b / 16 % 16), hexDigit (b % 16)])).length = 32
  rw [hexPair_length, md5Bytes_length]

/-! ### The claims -/

/-- C5: the conversation key is a pure, deterministic function of the first
system message content alone (so two message lists agreeing on it — however
their user and assistant turns differ — get identical keys, with no
per-process salt), and the key always has the fixed length 32 of an MD5 hex
digest. -/
theorem c5_conversation_key (l1 l2 : List Message)
    (h : systemContent l1 = systemContent l2) :
    get_conversation_id l1 = get_conversation_id l2 ∧
    (get_conversation_id l1).length = 32 := by
  refine ⟨?_, md5hex_length _⟩
  unfold get_conversation_id
  rw [h]

set_option maxRecDepth 100000 in
/-- Witness for C5: a list with extra user/assistant turns keys identically
to the bare system prompt, the key has length 32, and a one-character change
of the system content changes the key. -/
theorem c5_conversation_key_witness :
    (get_conversation_id [⟨"system", "tutor"⟩, ⟨"user", "hi"⟩, ⟨"assistant", "yo"⟩] =
        get_conversation_id [⟨"system", "tutor"⟩] ∧
      (get_conversation_id [⟨"system", "tutor"⟩, ⟨"user", "hi"⟩, ⟨"assistant", "yo"⟩]).length = 32) ∧
    get_conversation_id [⟨"system", "tutor"⟩] ≠ get_conversation_id [⟨"system", "tutoR"⟩] :=
  ⟨c5_conversation_key [⟨"system", "tutor"⟩, ⟨"user", "hi"⟩, ⟨"assistant", "yo"⟩]
      [⟨"system", "tutor"⟩] rfl,
   by decide⟩

/-- C6: the config extractor is total and applies the documented defaults
field by field, any present tag overriding its default with the stripped
value; in particular `[SUBJECT: Chemistry]` yields subject `"Chemistry"` and
an empty message list yields all defaults. -/
theorem c6_extractor_totality (messages : List Message) :
    (extract_config_from_system_prompt messages).subject =
        (findTagValue "SUBJECT" (systemContent messages)).getD "Physics" ∧
    (extract_config_from_system_prompt messages).chapter =
        (findTagValue "CHAPTER" (systemContent messages)).getD "General" ∧
    (extract_config_from_system_prompt messages).lesson =
        (findTagValue "LESSON" (systemContent messages)).getD "Introduction" ∧
    (extract_config_from_system_prompt messages).level =
        (findTagValue "LEVEL" (systemContent messages)).getD "High School" ∧
    (extract_config_from_system_prompt messages).language =
        (findTagValue "LANGUAGE" (systemContent messages)).getD "en" ∧
    (extract_config_from_system_prompt messages).student =
        (findTagValue "STUDENT" (systemContent messages)).getD "Student" ∧
    (extract_config_from_system_prompt [⟨"system", "pre [SUBJECT: Chemistry] post"⟩]).subject =
        "Chemistry" ∧
    extract_config_from_system_prompt [] =
      ⟨"Physics", "General", "Introduction", "High School", "en", "Student",
       ["Understanding Introduction"]⟩ :=
  ⟨rfl, rfl, rfl, rfl, rfl, rfl, by decide, by decide⟩

/-- C8: with the stream flag off, the handler returns one completed chat
object: the generated id, the creation timestamp, the echoed model, and
exactly one choice whose message role is "assistant", whose content is the
reply text verbatim, and whose finish reason is "stop". -/
theorem c8_non_streaming_shape (req : ChatCompletionRequest) (store : Store)
    (startO : HttpOutcome StartBody) (sendO : HttpOutcome SendBody)
    (now : Nat) (chat_id : String) (created : Nat)
    (h : req.stream = false) :
    (chat_completions req store startO sendO now chat_id created).1 =
      ChatOutput.completed
        ⟨chat_id, "chat.completion", created, req.model,
         [⟨0, ⟨"assistant",
               (chat_core req.messages store startO sendO now).teacher_message⟩,
           "stop"⟩]⟩ := by
  unfold chat_completions
  rw [h]
  rfl

/-- Witness for C8: a concrete non-streaming request (backend start
succeeding with greeting "hi") yields the single assistant/stop choice. -/
theorem c8_non_streaming_shape_witness :
    (chat_completions ⟨"m1", [], false⟩ (fun _ => none)
        (.response 201 "" ⟨some "s1", some "hi"⟩) (.transportError "x") 0 "id1" 7).1 =
      ChatOutput.completed
        ⟨"id1", "chat.completion", 7, "m1",
         [⟨0, ⟨"assistant",
               (chat_core [] (fun _ => none)
                 (.response 201 "" ⟨some "s1", some "hi"⟩) (.transportError "x") 0).teacher_message⟩,
           "stop"⟩]⟩ :=
  c8_non_streaming_shape ⟨"m1", [], false⟩ (fun _ => none)
    (.response 201 "" ⟨some "s1", some "hi"⟩) (.transportError "x") 0 "id1" 7 rfl

/-- C9: the start client succeeds exactly on status 201 returning the parsed
body and otherwise raises a backend error carrying the status and raw body;
the message client does the same with status 200; transport failures surface
as the distinct transport-error kind in both. -/
theorem c9_backend_client_taxonomy :
    (∀ status text (body : StartBody), status ≠ 201 →
        start_teacher_session (.response status text body) =
          .error (.httpException status text)) ∧
    (∀ text (body : StartBody),
        start_teacher_session (.response 201 text body) = .ok body) ∧
    (∀ msg, start_teacher_session (HttpOutcome.transportError msg) =
        .error (.transportError msg)) ∧
    (∀ status text (body : SendBody), status ≠ 200 →
        send_message_to_teacher (.response status text body) =
          .error (.httpException status text)) ∧
    (∀ text (body : SendBody),
        send_message_to_teacher (.response 200 text body) = .ok body) ∧
    (∀ msg, send_message_to_teacher (HttpOutcome.transportError msg) =
        .error (.transportError msg)) := by
  refine ⟨?_, ?_, ?_, ?_, ?_, ?_⟩ <;>
    first
      | intro status text body h
        simp [start_teacher_session, send_message_to_teacher, h]
      | intros
        rfl

/-- Witness for C9: the taxonomy at statuses 404, 201, 500, 200 and a
timeout. -/
theorem c9_backend_client_taxonomy_witness :
    start_teacher_session (.response 404 "nf" ⟨none, none⟩) =
        .error (.httpException 404 "nf") ∧
    start_teacher_session (.response 201 "ok" ⟨some "s", none⟩) =
        .ok ⟨some "s", none⟩ ∧
    start_teacher_session (HttpOutcome.transportError "timeout") =
        .error (.transportError "timeout") ∧
    send_message_to_teacher (.response 500 "boom" ⟨some "t"⟩) =
        .error (.httpException 500 "boom") ∧
    send_message_to_teacher (.response 200 "ok" ⟨some "t"⟩) = .ok ⟨some "t"⟩ ∧
    send_message_to_teacher (HttpOutcome.transportError "conn") =
        .error (.transportError "conn") :=
  ⟨c9_backend_client_taxonomy.1 404 "nf" ⟨none, none⟩ (by decide),
   c9_backend_client_taxonomy.2.1 "ok" ⟨some "s", none⟩,
   c9_backend_client_taxonomy.2.2.1 "timeout",
   c9_backend_client_taxonomy.2.2.2.1 500 "boom" ⟨some "t"⟩ (by decide),
   c9_backend_client_taxonomy.2.2.2.2.1 "ok" ⟨some "t"⟩,
   c9_backend_client_taxonomy.2.2.2.2.2 "conn"⟩

/-- C1: whenever the taken path's backend interaction faults (non-success
status, transport failure, or a start success body without `session_id`),
the handler still produces its normal success-shaped output — in streaming
mode the full word-chunk stream of the apology, in non-streaming mode the
completed assistant/stop response — with the apology as the reply text; the
backend failure status never appears in the output. -/
theorem c1_failure_swallowed_into_apology (req : ChatCompletionRequest)
    (store : Store) (startO : HttpOutcome StartBody) (sendO : HttpOutcome SendBody)
    (now : Nat) (chat_id : String) (created : Nat)
    (h : pathFailure req.messages store startO sendO) :
    (chat_core req.messages store startO sendO now).teacher_message =
        apology_message ∧
    (chat_completions req store startO sendO now chat_id created).1 =
      (if req.stream then
        ChatOutput.streamed (stream_response apology_message chat_id req.model created)
      else
        ChatOutput.completed (nonStreamingResponse chat_id created req.model
          apology_message)) := by
  have hmsg : (chat_core req.messages store startO sendO now).teacher_message =
      apology_message := by
    unfold pathFailure at h
    unfold chat_core
    cases hs : store (get_conversation_id req.messages) with
    | none =>
      rw [hs] at h
      cases hst : start_teacher_session startO with
      | error e => simp [hs, hst]
      | ok body =>
        rw [hst] at h
        simp only at h
        simp [hs, hst, h]
    | some sess =>
      rw [hs] at h
      cases hsd : send_message_to_teacher sendO with
      | error e => simp [hs, hsd]
      | ok body => rw [hsd] at h; simp only at h
  refine ⟨hmsg, ?_⟩
  unfold chat_completions
  cases req.stream <;> simp [hmsg]

/-- Witness for C1: with an empty store and the backend unreachable, a
streaming request streams the apology and nothing of the failure. -/
theorem c1_failure_swallowed_into_apology_witness :
    (chat_core [] (fun _ => none) (HttpOutcome.transportError "down")
        (HttpOutcome.transportError "x") 0).teacher_message = apology_message ∧
    (chat_completions ⟨"m1", [], true⟩ (fun _ => none)
        (HttpOutcome.transportError "down") (HttpOutcome.transportError "x")
        0 "id1" 7).1 =
      (if (true : Bool) then
        ChatOutput.streamed (stream_response apology_message "id1" "m1" 7)
      else
        ChatOutput.completed (nonStreamingResponse "id1" 7 "m1" apology_message)) :=
  c1_failure_swallowed_into_apology ⟨"m1", [], true⟩ (fun _ => none)
    (HttpOutcome.transportError "down") (HttpOutcome.transportError "x")
    0 "id1" 7 trivial

/-- C2: sequentially, a request whose key misses the store performs exactly
one start call (no send), inserts the one new session under the key with the
started backend session id, and replies with the backend's initial message
verbatim (the turn's user text goes nowhere); any request whose key hits
performs exactly one send call with the stored backend session id and the
last user text, never a start, and leaves the store unchanged. -/
theorem c2_sequential_session_creation (messages : List Message) (store : Store)
    (startO : HttpOutcome StartBody) (sendO : HttpOutcome SendBody) (now : Nat) :
    (∀ sid im, store (get_conversation_id messages) = none →
      start_teacher_session startO = .ok ⟨some sid, some im⟩ →
      chat_core messages store startO sendO now =
        ⟨im,
         storeInsert store (get_conversation_id messages)
           ⟨sid, extract_config_from_system_prompt messages, now, im⟩,
         [BackendCall.start
            (startPayload (extract_config_from_system_prompt messages))]⟩) ∧
    (∀ sess, store (get_conversation_id messages) = some sess →
      (chat_core messages store startO sendO now).calls =
          [BackendCall.send sess.session_id (get_last_user_message messages)] ∧
      (chat_core messages store startO sendO now).store = store) := by
  constructor
  · intro sid im hmiss hstart
    unfold chat_core
    simp [hmiss, hstart]
  · intro sess hhit
    unfold chat_core
    cases hsd : send_message_to_teacher sendO <;> simp [hhit, hsd]

/-- Witness for C2: a first request creates and stores the session and
replies "Welcome"; a second request with the session stored sends the user
text to the stored backend session id. -/
theorem c2_sequential_session_creation_witness :
    chat_core [] (fun _ => none) (.response 201 "" ⟨some "S1", some "Welcome"⟩)
        (HttpOutcome.transportError "x") 3 =
      ⟨"Welcome",
       storeInsert (fun _ => none) (get_conversation_id [])
         ⟨"S1", extract_config_from_system_prompt [], 3, "Welcome"⟩,
       [BackendCall.start (startPayload (extract_config_from_system_prompt []))]⟩ ∧
    ((chat_core [⟨"user", "hi"⟩]
          (fun _ => some ⟨"S1", extract_config_from_system_prompt [], 3, "Welcome"⟩)
          (.response 201 "" ⟨some "S2", some "again"⟩) (.response 200 "" ⟨some "ok"⟩)
          9).calls =
        [BackendCall.send "S1" (get_last_user_message [⟨"user", "hi"⟩])] ∧
      (chat_core [⟨"user", "hi"⟩]
          (fun _ => some ⟨"S1", extract_config_from_system_prompt [], 3, "Welcome"⟩)
          (.response 201 "" ⟨some "S2", some "again"⟩) (.response 200 "" ⟨some "ok"⟩)
          9).store =
        (fun _ => some ⟨"S1", extract_config_from_system_prompt [], 3, "Welcome"⟩)) :=
  ⟨(c2_sequential_session_creation [] (fun _ => none)
      (.response 201 "" ⟨some "S1", some "Welcome"⟩) (HttpOutcome.transportError "x")
      3).1 "S1" "Welcome" rfl rfl,
   (c2_sequential_session_creation [⟨"user", "hi"⟩]
      (fun _ => some ⟨"S1", extract_config_from_system_prompt [], 3, "Welcome"⟩)
      (.response 201 "" ⟨some "S2", some "again"⟩) (.response 200 "" ⟨some "ok"⟩)
      9).2 ⟨"S1", extract_config_from_system_prompt [], 3, "Welcome"⟩ rfl⟩

/-- C10: session creation is atomic with respect to the store — when a
store-miss request faults before insertion (start call raised, or its
success body lacks `session_id`), the store afterwards is exactly the store
before, so the key still misses. -/
theorem c10_no_insertion_on_failed_creation (messages : List Message)
    (store : Store) (startO : HttpOutcome StartBody) (sendO : HttpOutcome SendBody)
    (now : Nat)
    (hmiss : store (get_conversation_id messages) = none)
    (hfail : pathFailure messages store startO sendO) :
    (chat_core messages store startO sendO now).store = store ∧
    (chat_core messages store startO sendO now).store
        (get_conversation_id messages) = none := by
  unfold pathFailure at hfail
  rw [hmiss] at hfail
  have hst : (chat_core messages store startO sendO now).store = store := by
    unfold chat_core
    cases hst : start_teacher_session startO with
    | error e => simp [hmiss, hst]
    | ok body =>
      rw [hst] at hfail
      simp only at hfail
      simp [hmiss, hst, hfail]
  exact ⟨hst, by rw [hst]; exact hmiss⟩

/-- Witness for C10: a 201 success body without `session_id` inserts
nothing. -/
theorem c10_no_insertion_on_failed_creation_witness :
    (chat_core [] (fun _ => none) (.response 201 "ok" ⟨none, some "hi"⟩)
        (HttpOutcome.transportError "x") 0).store = (fun _ => none) ∧
    (chat_core [] (fun _ => none) (.response 201 "ok" ⟨none, some "hi"⟩)
        (HttpOutcome.transportError "x") 0).store (get_conversation_id []) = none :=
  c10_no_insertion_on_failed_creation [] (fun _ => none)
    (.response 201 "ok" ⟨none, some "hi"⟩) (HttpOutcome.transportError "x") 0
    rfl rfl

/-- C3: the stream translator emits exactly one data event per
whitespace-delimited word — each a chunk with that word plus one trailing
space as delta, finish reason null, and the shared id/created/model — then,
at the two positions after the words, exactly one stop chunk with empty
delta and finish reason "stop" and then the `[DONE]` sentinel; an empty
reply yields zero word events but still both trailing events. -/
theorem c3_streaming_framing (text chat_id model : String) (created : Nat) :
    (stream_response text chat_id model created).length =
        (pySplit text).length + 2 ∧
    (∀ k, k < (pySplit text).length →
      (stream_response text chat_id model created).getD k .done =
        .chunk ⟨chat_id, "chat.completion.chunk", created, model, 0,
                some ((pySplit text).getD k "" ++ " "), none⟩) ∧
    (stream_response text chat_id model created).getD (pySplit text).length .done =
      .chunk ⟨chat_id, "chat.completion.chunk", created, model, 0, none,
              some "stop"⟩ ∧
    (stream_response text chat_id model created).getD
        ((pySplit text).length + 1) (.chunk ⟨"", "", 0, "", 0, none, none⟩) =
      SSEEvent.done := by
  refine ⟨by simp [stream_response], ?_, ?_, ?_⟩
  · intro k hk
    have hk2 : k < ((pySplit text).map (fun word =>
        SSEEvent.chunk ⟨chat_id, "chat.completion.chunk", created, model, 0,
          some (word ++ " "), none⟩)).length := by simpa using hk
    unfold stream_response
    rw [List.getD_append _ _ _ _ hk2, List.getD_eq_getElem _ _ hk2,
      List.getElem_map, List.getD_eq_getElem _ _ hk]
  · unfold stream_response
    rw [List.getD_append_right]
    · simp
    · simp
  · unfold stream_response
    rw [List.getD_append_right]
    · simp
    · simp

/-- Witness for C3: the spec's `"Hello world"` example — two word chunks
`"Hello "` and `"world "`, one stop chunk, then the sentinel — and the empty
reply keeping only the stop chunk and the sentinel. -/
theorem c3_streaming_framing_witness :
    (stream_response "Hello world" "id1" "m1" 5).length = 2 + 2 ∧
    (stream_response "Hello world" "id1" "m1" 5).getD 0 .done =
      .chunk ⟨"id1", "chat.completion.chunk", 5, "m1", 0, some "Hello ", none⟩ ∧
    (stream_response "Hello world" "id1" "m1" 5).getD 1 .done =
      .chunk ⟨"id1", "chat.completion.chunk", 5, "m1", 0, some "world ", none⟩ ∧
    (stream_response "Hello world" "id1" "m1" 5).getD 2 .done =
      .chunk ⟨"id1", "chat.completion.chunk", 5, "m1", 0, none, some "stop"⟩ ∧
    (stream_response "Hello world" "id1" "m1" 5).getD 3
        (.chunk ⟨"", "", 0, "", 0, none, none⟩) = SSEEvent.done ∧
    (stream_response "" "id1" "m1" 5).length = 0 + 2 := by
  have h := c3_streaming_framing "Hello world" "id1" "m1" 5
  have hw : pySplit "Hello world" = ["Hello", "world"] := by decide
  refine ⟨?_, ?_, ?_, ?_, ?_, (c3_streaming_framing "" "id1" "m1" 5).1⟩
  · have := h.1; rwa [hw] at this
  · have := h.2.1 0 (by rw [hw]; decide)
    rwa [hw] at this
  · have := h.2.1 1 (by rw [hw]; decide)
    rwa [hw] at this
  · have := h.2.2.1; rwa [hw] at this
  · have := h.2.2.2; rwa [hw] at this

/-- Counterexample to C4: the claim promises the tagged value back
"regardless of what the value is", but the tag value
`"Understanding the core concepts"` equals the default sentinel, so the
synthesis step of main.py:113-115 silently overwrites it with
`"Understanding " + lesson` (the spec itself flags this ambiguity). -/
theorem c4_competence_tag_counterexample :
    findTagValue "COMPETENCE"
        (systemContent [⟨"system", "[COMPETENCE: Understanding the core concepts]"⟩]) =
      some "Understanding the core concepts" ∧
    (extract_config_from_system_prompt
        [⟨"system", "[COMPETENCE: Understanding the core concepts]"⟩]).competence =
      ["Understanding Introduction"] ∧
    (extract_config_from_system_prompt
        [⟨"system", "[COMPETENCE: Understanding the core concepts]"⟩]).competence ≠
      ["Understanding the core concepts"] := by
  refine ⟨by decide, by decide, by decide⟩

/-- C4 as amended: a present `[COMPETENCE: value]` tag yields the
single-element list of its stripped value whenever that value differs from
the default sentinel `"Understanding the core concepts"`; when it equals the
sentinel and the resolved lesson is nonempty, the lesson-derived competence
silently replaces it. -/
theorem c4_competence_tag_amended (messages : List Message) (v : String)
    (h : findTagValue "COMPETENCE" (systemContent messages) = some v) :
    (v ≠ "Understanding the core concepts" →
      (extract_config_from_system_prompt messages).competence = [v]) ∧
    (v = "Understanding the core concepts" →
      (extract_config_from_system_prompt messages).lesson ≠ "" →
      (extract_config_from_system_prompt messages).competence =
        ["Understanding " ++ (extract_config_from_system_prompt messages).lesson]) := by
  constructor
  · intro hv
    unfold extract_config_from_system_prompt
    simp [h, hv]
  · intro hv hl
    have hl2 : (findTagValue "LESSON" (systemContent messages)).getD "Introduction" ≠ "" := hl
    unfold extract_config_from_system_prompt
    simp [h, hv, hl2]

/-- Witness for C4 (amended): `[COMPETENCE: Algebra]` yields exactly
`["Algebra"]`. -/
theorem c4_competence_tag_amended_witness :
    (extract_config_from_system_prompt [⟨"system", "[COMPETENCE: Algebra]"⟩]).competence =
      ["Algebra"] :=
  (c4_competence_tag_amended [⟨"system", "[COMPETENCE: Algebra]"⟩] "Algebra"
      (by decide)).1 (by decide)

/-- Counterexample to C7: with system prompt `"[LESSON: ]"` the lesson tag
strips to the empty string, which is falsy in Python, so the synthesis step
of main.py:114 is skipped and competence stays at the default sentinel
instead of the claimed `["Understanding " + lesson]`. -/
theorem c7_competence_default_counterexample :
    findTagValue "COMPETENCE" (systemContent [⟨"system", "[LESSON: ]"⟩]) = none ∧
    (extract_config_from_system_prompt [⟨"system", "[LESSON: ]"⟩]).lesson = "" ∧
    (extract_config_from_system_prompt [⟨"system", "[LESSON: ]"⟩]).competence =
      ["Understanding the core concepts"] ∧
    (extract_config_from_system_prompt [⟨"system", "[LESSON: ]"⟩]).competence ≠
      ["Understanding " ++
        (extract_config_from_system_prompt [⟨"system", "[LESSON: ]"⟩]).lesson] := by
  refine ⟨by decide, by decide, by decide, by decide⟩

/-- C7 as amended: when no `[COMPETENCE: ...]` tag is present and the
resolved lesson is nonempty, competence is the one-element list
`"Understanding " ++ lesson` (with the possibly tag-overridden lesson). -/
theorem c7_competence_default_amended (messages : List Message)
    (h : findTagValue "COMPETENCE" (systemContent messages) = none)
    (hl : (extract_config_from_system_prompt messages).lesson ≠ "") :
    (extract_config_from_system_prompt messages).competence =
      ["Understanding " ++ (extract_config_from_system_prompt messages).lesson] := by
  have hl2 : (findTagValue "LESSON" (systemContent messages)).getD "Introduction" ≠ "" := hl
  unfold extract_config_from_system_prompt
  simp [h, hl2]

/-- Witness for C7 (amended): the spec's example — lesson resolving to
`"Waves"` gives competence `["Understanding Waves"]`. -/
theorem c7_competence_default_amended_witness :
    (extract_config_from_system_prompt [⟨"system", "[LESSON: Waves]"⟩]).competence =
      ["Understanding Waves"] :=
  (c7_competence_default_amended [⟨"system", "[LESSON: Waves]"⟩]
      (by decide) (by decide)).trans (by decide)

end Bridge
